import Mathlib

/-!
Shallow embedding of `src/server.js` from tampere-trafficlights-realtime:
the per-resource fetch / cache / backoff / demo-fallback state machine of the
Express server, plus the `/config`, `/health` and `/api/proxy` endpoints.

Machine integers (`Date.now()` timestamps, counters, HTTP status codes) are
modelled as `Nat`; JavaScript `Math.random()` draws are modelled as `Rat`
values in `[0, 1)` supplied by an oracle; network I/O is modelled by a
`NetEvent` describing what the single `fetch` of a resolution would observe.
-/

namespace TrafficServer

/-- JSON values, as produced by `response.json()` / `JSON.parse`. -/
inductive Json where
  | null : Json
  | bool (b : Bool) : Json
  | num (q : Rat) : Json
  | str (s : String) : Json
  | arr (xs : List Json) : Json
  | obj (kvs : List (String × Json)) : Json

/-- The `data` slot of a cache object (`cacheLocations.data` /
`cacheStates.data`): JavaScript `null` initially, a parsed JSON value after a
JSON success, or a raw text body after a text success. -/
inductive CacheData where
  | null : CacheData
  | json (j : Json) : CacheData
  | text (t : String) : CacheData

/-- JavaScript truthiness of a cache `data` slot, as tested by
`if (cacheLocations.data)` / `if (cacheStates.data)` in the handlers:
`null`, `false`, `0`, `""` (and JSON `null`) are falsy. -/
def CacheData.truthy : CacheData → Bool
  | .null => false
  | .json .null => false
  | .json (.bool b) => b
  | .json (.num q) => q != 0
  | .json (.str s) => s != ""
  | .json (.arr _) => true
  | .json (.obj _) => true
  | .text t => t != ""

/-- One cache object, `{ data, contentType, at }` in the source. -/
structure Cache where
  data : CacheData
  contentType : String
  atMs : Nat

/-- The module-level mutable variables of `server.js`. -/
structure ServerState where
  lastLocationsFallback : Bool
  lastStatesFallback : Bool
  cacheLocations : Cache
  cacheStates : Cache
  locFailCount : Nat
  statesFailCount : Nat
  locNextTryAt : Nat
  statesNextTryAt : Nat

/-- The initial values of the module-level variables at process start. -/
def initialState : ServerState where
  lastLocationsFallback := false
  lastStatesFallback := false
  cacheLocations := ⟨.null, "application/json", 0⟩
  cacheStates := ⟨.null, "application/json", 0⟩
  locFailCount := 0
  statesFailCount := 0
  locNextTryAt := 0
  statesNextTryAt := 0

/-- The environment-derived constants of `server.js`. `base` is the value of
`BASE` (trailing slashes already stripped, as done at module load). -/
structure ServerConfig where
  base : String
  locationsUrl : String
  statesUrl : String
  demoConfigured : Bool
  pollMs : Nat
  upstreamTimeoutMs : Nat
  backoffAfterFails : Nat
  backoffWindowMs : Nat
  deriving Repr, DecidableEq

/-- `ps` is a prefix of the first list (character-level `startsWith`). -/
def charsStartWith : List Char → List Char → Bool
  | _, [] => true
  | [], _ :: _ => false
  | c :: cs, p :: ps => c = p && charsStartWith cs ps

/-- `ps` occurs contiguously in the first list (character-level
`includes`). -/
def charsContain : List Char → List Char → Bool
  | [], ps => ps.isEmpty
  | c :: cs, ps => charsStartWith (c :: cs) ps || charsContain cs ps

/-- JavaScript `s.toLowerCase()` (over the characters this server
compares: ASCII). -/
def strLower (s : String) : String := ⟨s.data.map Char.toLower⟩

/-- JavaScript `s.includes(pat)` (used for the content-type sniffing). -/
def containsSub (s pat : String) : Bool := charsContain s.data pat.data

/-- The regex test `/^https?:\/\//i.test(urlOrPath)`. -/
def isHttpAbs (u : String) : Bool :=
  charsStartWith (strLower u).data "http://".data ||
    charsStartWith (strLower u).data "https://".data

/-- `toAbs(urlOrPath)`: `null` for a falsy (empty) input, the input itself if
absolute, `null` if no `BASE` is set, else `BASE + "/" + path` with leading
slashes stripped from the path. -/
def toAbs (base urlOrPath : String) : Option String :=
  if urlOrPath = "" then none
  else if isHttpAbs urlOrPath then some urlOrPath
  else if base = "" then none
  else some (base ++ "/" ++ String.mk (urlOrPath.data.dropWhile (· = '/')))

/-- `shouldBackoff(nextTryAt)`: `Date.now() < nextTryAt`. -/
def shouldBackoff (now nextTryAt : Nat) : Bool := now < nextTryAt

/-- `onFail(kind)`: increment the resource's failure counter; when it reaches
`BACKOFF_AFTER_FAILS`, set the resource's `nextTryAt` to
`Date.now() + BACKOFF_WINDOW_MS` and reset the counter to 0. -/
def onFail (cfg : ServerConfig) (now : Nat) (kind : String) (s : ServerState) :
    ServerState :=
  if kind = "locations" then
    let c := s.locFailCount + 1
    if c ≥ cfg.backoffAfterFails then
      { s with locFailCount := 0, locNextTryAt := now + cfg.backoffWindowMs }
    else
      { s with locFailCount := c }
  else
    let c := s.statesFailCount + 1
    if c ≥ cfg.backoffAfterFails then
      { s with statesFailCount := 0, statesNextTryAt := now + cfg.backoffWindowMs }
    else
      { s with statesFailCount := c }

/-- `onSuccess(kind)`: reset the resource's failure counter and `nextTryAt`
to 0. -/
def onSuccess (kind : String) (s : ServerState) : ServerState :=
  if kind = "locations" then
    { s with locFailCount := 0, locNextTryAt := 0 }
  else
    { s with statesFailCount := 0, statesNextTryAt := 0 }

/-- What the single `fetchWithTimeout` of one `tryRemote` call would observe:
either a response (status, raw `content-type` header or "", body text, and
the result of `JSON.parse` on the body when attempted — `none` if the body is
not valid JSON), or a thrown transport error (DNS failure, connection
refused, abort-on-timeout). -/
inductive NetEvent where
  | response (status : Nat) (contentType : String) (body : String)
      (parsed : Option Json) : NetEvent
  | netError (msg : String) : NetEvent

/-- The result object of `tryRemote`. -/
inductive FetchResult where
  | okJson (data : Json) : FetchResult
  | okText (text : String) (contentType : String) : FetchResult
  | fail (status : Nat) (error : String) (text : String) : FetchResult

def FetchResult.isOk : FetchResult → Bool
  | .okJson _ => true
  | .okText _ _ => true
  | .fail _ _ _ => false

/-- `r.ok`: status in the range 200–299. -/
def statusOk (st : Nat) : Bool := 200 ≤ st && st < 300

/-- `tryRemote(url, kind)`. A `none` url reaches `fetch(null)`, which in Node
rejects with a URL-parse `TypeError` before any network I/O; the surrounding
`catch` turns that, like every transport error, into
`{ ok: false, status: 502, error: String(e) }`. A non-2xx response yields
`{ ok: false, status, error, text }`; a JSON-like `content-type` leads to
`r.json()` (a parse failure throws into the same `catch`); anything else is
returned as raw text with the lowercased declared content type, defaulting to
`text/plain; charset=utf-8`. -/
def tryRemote (url : Option String) (net : NetEvent) : FetchResult :=
  match url with
  | none => .fail 502 "TypeError: Failed to parse URL from null" ""
  | some _ =>
    match net with
    | .netError msg => .fail 502 msg ""
    | .response status ctRaw body parsed =>
      if !statusOk status then
        .fail status ("Upstream " ++ toString status) body
      else
        let ct := strLower ctRaw
        if containsSub ct "application/json" || containsSub ct "+json" then
          match parsed with
          | some j => .okJson j
          | none => .fail 502 "SyntaxError: unexpected token in JSON" ""
        else
          .okText body (if ct = "" then "text/plain; charset=utf-8" else ct)

/-- Number of network calls one `tryRemote` invocation performs: `fetch(null)`
fails URL parsing before any I/O, so an absent url makes none. -/
def tryRemoteNetCalls (url : Option String) : Nat :=
  match url with
  | none => 0
  | some _ => 1

/-- The observable HTTP response of one handler invocation: status code, body
(`res.json(v)` carries a JSON value, `res.send(t)` a text body), the content
type it is served under, and the two custom headers the handlers set. -/
structure Response where
  status : Nat
  body : CacheData
  contentType : String
  xCache : Option String
  xDemoFallback : Option String

/-- Everything one resolution of `/api/locations` or `/api/states` produces:
the HTTP response, the module state afterwards, how many `tryRemote`
invocations (live upstream attempts) the resolution performed, and the
outcome of that invocation when one happened. -/
structure HandlerResult where
  response : Response
  state : ServerState
  fetchCount : Nat
  fetchOutcome : Option FetchResult

/-- The fall-through tail of the `/api/locations` handler: serve the cache if
its `data` is truthy (with `X-Cache: hit-locations`), else the demo file
`sample-data/locations.geojson` (content: `demoText`) when demo mode is
configured (setting `lastLocationsFallback` and `X-Demo-Fallback`), else a
500 JSON error. -/
def locationsFallThrough (cfg : ServerConfig) (demoText : String)
    (s : ServerState) (fc : Nat) (fo : Option FetchResult) : HandlerResult :=
  if s.cacheLocations.data.truthy then
    ⟨⟨200, s.cacheLocations.data, s.cacheLocations.contentType,
        some "hit-locations", none⟩, s, fc, fo⟩
  else if cfg.demoConfigured then
    ⟨⟨200, .text demoText, "application/json", none, some "locations"⟩,
      { s with lastLocationsFallback := true }, fc, fo⟩
  else
    ⟨⟨500, .json (.obj [("error",
          .str "LOCATIONS_URL failed, and demo mode disabled")]),
        "application/json", none, none⟩, s, fc, fo⟩

/-- The `/api/locations` handler. `now` is `Date.now()` during this request;
`net` is what the (single, potential) upstream fetch would observe;
`demoText` is the content of `sample-data/locations.geojson`. -/
def locationsGet (cfg : ServerConfig) (net : NetEvent) (now : Nat)
    (demoText : String) (s0 : ServerState) : HandlerResult :=
  let s := { s0 with lastLocationsFallback := false }
  match toAbs cfg.base cfg.locationsUrl with
  | some url =>
    if !shouldBackoff now s.locNextTryAt then
      let out := tryRemote (some url) net
      match out with
      | .okJson d =>
        let s := onSuccess "locations" s
        let s := { s with cacheLocations := ⟨.json d, "application/json", now⟩ }
        ⟨⟨200, .json d, "application/json", none, none⟩, s, 1, some out⟩
      | .okText t ct =>
        let s := onSuccess "locations" s
        let s := { s with cacheLocations := ⟨.text t, ct, now⟩ }
        ⟨⟨200, .text t, ct, none, none⟩, s, 1, some out⟩
      | .fail st e txt =>
        locationsFallThrough cfg demoText
          (onFail cfg now "locations" s) 1 (some (.fail st e txt))
    else
      locationsFallThrough cfg demoText s 0 none
  | none =>
    locationsFallThrough cfg demoText s 0 none

/-- The fixed candidate pool of the demo-states randomization. -/
def demoCandidates : List String :=
  ["1", "4", "5", "9", "12", "14", "16", "17", "18", "19", "22", "23"]

/-- `candidates[Math.floor(r2 * candidates.length)]` for a draw `r2`. -/
def pickCandidate (r2 : Rat) : String :=
  demoCandidates.getD (r2 * 12).floor.toNat ""

/-- Lookup of an object field (`s.state`); a missing field is JavaScript
`undefined`, modelled as JSON `null`. -/
def getKey : List (String × Json) → String → Json
  | [], _ => Json.null
  | (a, b) :: tl, k => if a = k then b else getKey tl k

/-- The object spread `{...s, state: v}` on an object that has a `state`
field: every field is kept in place and the value at `state` is replaced. -/
def setKey (e : List (String × Json)) (k : String) (v : Json) :
    List (String × Json) :=
  e.map (fun kv => if kv.1 = k then (kv.1, v) else kv)

/-- One entry of the demo-states randomization:
`{...s, state: Math.random() < 0.25 ? candidates[...] : s.state}`, where
`r1` is the first `Math.random()` draw and `r2` the (lazily evaluated)
second. -/
def rerollEntry (r1 r2 : Rat) (e : List (String × Json)) :
    List (String × Json) :=
  setKey e "state"
    (if r1 < 1/4 then Json.str (pickCandidate r2) else getKey e "state")

/-- `base.map((s) => ({...s, state: ...}))`: the whole randomized demo-states
array, with `rolls i` the pair of `Math.random()` draws available to the
entry at position `i`. -/
def demoRandomize : List (List (String × Json)) → (Nat → Rat × Rat) →
    List (List (String × Json))
  | [], _ => []
  | e :: es, rolls =>
    rerollEntry (rolls 0).1 (rolls 0).2 e ::
      demoRandomize es (fun i => rolls (i + 1))

/-- The fall-through tail of the `/api/states` handler: serve the cache if
its `data` is truthy (with `X-Cache: hit-states`), else the randomized demo
baseline (`base`, from `sample-data/states.json`) when demo mode is
configured, else a 500 JSON error. -/
def statesFallThrough (cfg : ServerConfig) (base : List (List (String × Json)))
    (rolls : Nat → Rat × Rat) (s : ServerState) (fc : Nat)
    (fo : Option FetchResult) : HandlerResult :=
  if s.cacheStates.data.truthy then
    ⟨⟨200, s.cacheStates.data, s.cacheStates.contentType,
        some "hit-states", none⟩, s, fc, fo⟩
  else if cfg.demoConfigured then
    ⟨⟨200, .json (.arr ((demoRandomize base rolls).map Json.obj)),
        "application/json", none, some "states"⟩,
      { s with lastStatesFallback := true }, fc, fo⟩
  else
    ⟨⟨500, .json (.obj [("error",
          .str "STATES_URL failed, and demo mode disabled")]),
        "application/json", none, none⟩, s, fc, fo⟩

/-- The `/api/states` handler; parameters as in `locationsGet`, plus the
demo baseline array and the randomness oracle. -/
def statesGet (cfg : ServerConfig) (net : NetEvent) (now : Nat)
    (base : List (List (String × Json))) (rolls : Nat → Rat × Rat)
    (s0 : ServerState) : HandlerResult :=
  let s := { s0 with lastStatesFallback := false }
  match toAbs cfg.base cfg.statesUrl with
  | some url =>
    if !shouldBackoff now s.statesNextTryAt then
      let out := tryRemote (some url) net
      match out with
      | .okJson d =>
        let s := onSuccess "states" s
        let s := { s with cacheStates := ⟨.json d, "application/json", now⟩ }
        ⟨⟨200, .json d, "application/json", none, none⟩, s, 1, some out⟩
      | .okText t ct =>
        let s := onSuccess "states" s
        let s := { s with cacheStates := ⟨.text t, ct, now⟩ }
        ⟨⟨200, .text t, ct, none, none⟩, s, 1, some out⟩
      | .fail st e txt =>
        statesFallThrough cfg base rolls
          (onFail cfg now "states" s) 1 (some (.fail st e txt))
    else
      statesFallThrough cfg base rolls s 0 none
  | none =>
    statesFallThrough cfg base rolls s 0 none

/-- `new URL(u).origin` for the http(s) base URLs this server accepts:
scheme plus host (everything up to the first `/` after `://`). -/
def urlOrigin (u : String) : String :=
  match u.splitOn "://" with
  | scheme :: rest :: _ => scheme ++ "://" ++ (rest.splitOn "/").headD ""
  | _ => u

/-- The `/config` handler: a pure report of configuration and of the current
module state (fallback flags and backoff diagnostics); it mutates nothing. -/
def configGet (cfg : ServerConfig) (s : ServerState) : Json × ServerState :=
  (Json.obj [
    ("pollIntervalMs", .num cfg.pollMs),
    ("demoConfigured", .bool cfg.demoConfigured),
    ("fallbackActive", .obj [
      ("locations", .bool s.lastLocationsFallback),
      ("states", .bool s.lastStatesFallback)]),
    ("usingRemote", .bool (cfg.locationsUrl != "" && cfg.statesUrl != "")),
    ("base", if cfg.base = "" then .null else .str (urlOrigin cfg.base)),
    ("upstream", .obj [
      ("timeoutMs", .num cfg.upstreamTimeoutMs),
      ("backoffAfterFails", .num cfg.backoffAfterFails),
      ("backoffWindowMs", .num cfg.backoffWindowMs),
      ("locFailCount", .num s.locFailCount),
      ("statesFailCount", .num s.statesFailCount),
      ("locNextTryAt", .num s.locNextTryAt),
      ("statesNextTryAt", .num s.statesNextTryAt)])], s)

/-- `{ ok: r.ok, status: r.status || 200 }` for one `/health` probe (a
successful `tryRemote` result carries no `status` field, hence 200). -/
def healthEntry (r : FetchResult) : Json :=
  match r with
  | .fail st _ _ => .obj [("ok", .bool false), ("status", .num st)]
  | _ => .obj [("ok", .bool true), ("status", .num 200)]

/-- The `/health` handler: for each resource whose raw URL is non-empty,
perform a live, unthrottled `tryRemote` probe (`netLoc` / `netSt` are what
those fetches would observe); a resource with an empty raw URL reports
`{ ok: false, status: 400 }`. The module state is untouched. -/
def healthGet (cfg : ServerConfig) (netLoc netSt : NetEvent)
    (s : ServerState) : Json × ServerState :=
  let locEntry :=
    if cfg.locationsUrl != "" then
      healthEntry (tryRemote (toAbs cfg.base cfg.locationsUrl) netLoc)
    else Json.obj [("ok", .bool false), ("status", .num 400)]
  let stEntry :=
    if cfg.statesUrl != "" then
      healthEntry (tryRemote (toAbs cfg.base cfg.statesUrl) netSt)
    else Json.obj [("ok", .bool false), ("status", .num 400)]
  (Json.obj [("results", .obj [("locations", locEntry), ("states", stEntry)])],
    s)

/-- The `/api/proxy` handler: `queryPath` is `(req.query.path || "")`;
400 when `toAbs` cannot resolve it, otherwise one uncached, unthrottled
`tryRemote` whose result is passed through (`out.text || out.error ||
"Proxy error"` on failure, with express's default text content type).
The module state is untouched. -/
def proxyGet (cfg : ServerConfig) (queryPath : String) (net : NetEvent)
    (s : ServerState) : Response × ServerState :=
  match toAbs cfg.base queryPath with
  | none =>
    (⟨400, .json (.obj [("error", .str "Invalid path or base not set")]),
        "application/json", none, none⟩, s)
  | some url =>
    match tryRemote (some url) net with
    | .fail st e txt =>
      (⟨st, .text (if txt != "" then txt else if e != "" then e
            else "Proxy error"),
          "text/html; charset=utf-8", none, none⟩, s)
    | .okJson d => (⟨200, .json d, "application/json", none, none⟩, s)
    | .okText t ct => (⟨200, .text t, ct, none, none⟩, s)

/-- `n` consecutive failed attempts for `kind` (no intervening success),
the `i`-th failure happening at time `t i`. -/
def failTimes (cfg : ServerConfig) (t : Nat → Nat) (kind : String) :
    Nat → ServerState → ServerState
  | 0, s => s
  | n + 1, s => onFail cfg (t n) kind (failTimes cfg t kind n s)

/-- In a `/api/locations` resolution under net conditions `net` at time
`now`, the live call is skipped (unresolvable URL or active backoff) or
fails. -/
def liveFailsOrSkippedLoc (cfg : ServerConfig) (net : NetEvent) (now : Nat)
    (s : ServerState) : Bool :=
  match toAbs cfg.base cfg.locationsUrl with
  | none => true
  | some url => shouldBackoff now s.locNextTryAt ||
      !(tryRemote (some url) net).isOk

/-- In a `/api/states` resolution under net conditions `net` at time `now`,
the live call is skipped or fails. -/
def liveFailsOrSkippedStates (cfg : ServerConfig) (net : NetEvent) (now : Nat)
    (s : ServerState) : Bool :=
  match toAbs cfg.base cfg.statesUrl with
  | none => true
  | some url => shouldBackoff now s.statesNextTryAt ||
      !(tryRemote (some url) net).isOk

/-- The field list of a JSON object (else empty). -/
def Json.fields : Json → List (String × Json)
  | .obj kvs => kvs
  | _ => []

/-- Configuration for the counterexample to the claim that any cached value
from an earlier success is served on failure: an absolute locations URL and
demo mode enabled. -/
def c4cfg : ServerConfig :=
  ⟨"", "http://u.example/loc", "", true, 2000, 3000, 3, 30000⟩

/-- First resolution: the upstream succeeds with an empty text body, which
the success branch stores in the cache. -/
def c4run1 : HandlerResult :=
  locationsGet c4cfg (.response 200 "text/plain" "" none) 1000 "DEMO"
    initialState

/-- Second resolution: the upstream now fails; the cache still holds the
empty-text value from the earlier success. -/
def c4run2 : HandlerResult :=
  locationsGet c4cfg (.netError "ECONNREFUSED") 2000 "DEMO" c4run1.state

/-- Configuration for the absent-URL counterexample: every URL variable at
its empty default. -/
def c8cfg : ServerConfig := ⟨"", "", "", true, 2000, 3000, 3, 30000⟩

/-! ### Helper lemmas on the state transitions -/

theorem onFail_locations (cfg : ServerConfig) (now : Nat) (s : ServerState) :
    onFail cfg now "locations" s =
      if s.locFailCount + 1 ≥ cfg.backoffAfterFails then
        { s with locFailCount := 0, locNextTryAt := now + cfg.backoffWindowMs }
      else
        { s with locFailCount := s.locFailCount + 1 } := by
  simp [onFail]

theorem onFail_states (cfg : ServerConfig) (now : Nat) (s : ServerState) :
    onFail cfg now "states" s =
      if s.statesFailCount + 1 ≥ cfg.backoffAfterFails then
        { s with statesFailCount := 0,
                 statesNextTryAt := now + cfg.backoffWindowMs }
      else
        { s with statesFailCount := s.statesFailCount + 1 } := by
  simp [onFail]

theorem onSuccess_locations (s : ServerState) :
    onSuccess "locations" s = { s with locFailCount := 0, locNextTryAt := 0 } := by
  simp [onSuccess]

theorem onSuccess_states (s : ServerState) :
    onSuccess "states" s =
      { s with statesFailCount := 0, statesNextTryAt := 0 } := by
  simp [onSuccess]

/-! ### Claim C2 -/

/-- C2: `onFail` increments the resource's consecutive-failure counter, and
exactly when the counter reaches the configured threshold
`BACKOFF_AFTER_FAILS` it sets the resource's backoff deadline to
`now + BACKOFF_WINDOW_MS` and resets the counter to 0; `onSuccess` resets
the counter to 0 and clears the backoff deadline, regardless of the prior
counter or deadline value. (The counters reach the threshold by unit
increments from 0, so "has not yet reached the threshold" is the reachable
precondition under which "reaches" means exact equality.) -/
theorem onFail_trips_exactly_at_threshold (cfg : ServerConfig) (now : Nat)
    (s : ServerState)
    (hloc : s.locFailCount < cfg.backoffAfterFails)
    (hst : s.statesFailCount < cfg.backoffAfterFails) :
    ((s.locFailCount + 1 = cfg.backoffAfterFails →
        (onFail cfg now "locations" s).locFailCount = 0 ∧
        (onFail cfg now "locations" s).locNextTryAt =
          now + cfg.backoffWindowMs) ∧
      (s.locFailCount + 1 ≠ cfg.backoffAfterFails →
        (onFail cfg now "locations" s).locFailCount = s.locFailCount + 1 ∧
        (onFail cfg now "locations" s).locNextTryAt = s.locNextTryAt)) ∧
    ((s.statesFailCount + 1 = cfg.backoffAfterFails →
        (onFail cfg now "states" s).statesFailCount = 0 ∧
        (onFail cfg now "states" s).statesNextTryAt =
          now + cfg.backoffWindowMs) ∧
      (s.statesFailCount + 1 ≠ cfg.backoffAfterFails →
        (onFail cfg now "states" s).statesFailCount = s.statesFailCount + 1 ∧
        (onFail cfg now "states" s).statesNextTryAt = s.statesNextTryAt)) ∧
    ((onSuccess "locations" s).locFailCount = 0 ∧
      (onSuccess "locations" s).locNextTryAt = 0) ∧
    ((onSuccess "states" s).statesFailCount = 0 ∧
      (onSuccess "states" s).statesNextTryAt = 0) := by
  refine ⟨⟨fun h => ?_, fun h => ?_⟩, ⟨fun h => ?_, fun h => ?_⟩, ?_, ?_⟩
  · rw [onFail_locations, if_pos (by omega)]
    exact ⟨rfl, rfl⟩
  · rw [onFail_locations, if_neg (by omega)]
    exact ⟨rfl, rfl⟩
  · rw [onFail_states, if_pos (by omega)]
    exact ⟨rfl, rfl⟩
  · rw [onFail_states, if_neg (by omega)]
    exact ⟨rfl, rfl⟩
  · rw [onSuccess_locations]
    exact ⟨rfl, rfl⟩
  · rw [onSuccess_states]
    exact ⟨rfl, rfl⟩

/-- Witness for C2 at a concrete state: threshold 3, counters at 2 and 1. -/
theorem onFail_trips_exactly_at_threshold_witness :
    (⟨false, false, ⟨.null, "application/json", 0⟩,
        ⟨.null, "application/json", 0⟩, 2, 1, 0, 0⟩ :
      ServerState).locFailCount < 3 ∧
    ((⟨false, false, ⟨.null, "application/json", 0⟩,
        ⟨.null, "application/json", 0⟩, 2, 1, 0, 0⟩ :
      ServerState).locFailCount + 1 = 3 →
      (onFail ⟨"", "", "", true, 2000, 3000, 3, 30000⟩ 50 "locations"
        ⟨false, false, ⟨.null, "application/json", 0⟩,
          ⟨.null, "application/json", 0⟩, 2, 1, 0, 0⟩).locFailCount = 0 ∧
      (onFail ⟨"", "", "", true, 2000, 3000, 3, 30000⟩ 50 "locations"
        ⟨false, false, ⟨.null, "application/json", 0⟩,
          ⟨.null, "application/json", 0⟩, 2, 1, 0, 0⟩).locNextTryAt =
        50 + 30000) :=
  ⟨by decide,
    (onFail_trips_exactly_at_threshold
      ⟨"", "", "", true, 2000, 3000, 3, 30000⟩ 50
      ⟨false, false, ⟨.null, "application/json", 0⟩,
        ⟨.null, "application/json", 0⟩, 2, 1, 0, 0⟩
      (by decide) (by decide)).1.1⟩

/-! ### Claim C3 -/

theorem failTimes_loc_below (cfg : ServerConfig) (t : Nat → Nat)
    (s : ServerState) (h0 : s.locFailCount = 0) :
    ∀ n, n < cfg.backoffAfterFails →
      (failTimes cfg t "locations" n s).locFailCount = n ∧
      (failTimes cfg t "locations" n s).locNextTryAt = s.locNextTryAt := by
  intro n
  induction n with
  | zero => intro _; exact ⟨h0, rfl⟩
  | succ k ih =>
    intro hn
    obtain ⟨hc, hnx⟩ := ih (Nat.lt_of_succ_lt hn)
    rw [failTimes, onFail_locations, hc, if_neg (by omega)]
    exact ⟨rfl, hnx⟩

theorem failTimes_states_below (cfg : ServerConfig) (t : Nat → Nat)
    (s : ServerState) (h0 : s.statesFailCount = 0) :
    ∀ n, n < cfg.backoffAfterFails →
      (failTimes cfg t "states" n s).statesFailCount = n ∧
      (failTimes cfg t "states" n s).statesNextTryAt = s.statesNextTryAt := by
  intro n
  induction n with
  | zero => intro _; exact ⟨h0, rfl⟩
  | succ k ih =>
    intro hn
    obtain ⟨hc, hnx⟩ := ih (Nat.lt_of_succ_lt hn)
    rw [failTimes, onFail_states, hc, if_neg (by omega)]
    exact ⟨rfl, hnx⟩

/-- C3: starting from the state just after a backoff trip (counter 0, no
intervening success), fewer than `BACKOFF_AFTER_FAILS` further consecutive
failures never change the backoff deadline — in particular (threshold ≥ 2) a
single failure after a window expires opens no new window — and exactly
`BACKOFF_AFTER_FAILS` consecutive failures set a new deadline, namely
`(time of the last failure) + BACKOFF_WINDOW_MS`. -/
theorem retrip_requires_full_threshold (cfg : ServerConfig) (t : Nat → Nat)
    (s : ServerState) (h0loc : s.locFailCount = 0)
    (h0st : s.statesFailCount = 0) (ht : 1 ≤ cfg.backoffAfterFails) :
    (∀ n, n < cfg.backoffAfterFails →
      (failTimes cfg t "locations" n s).locNextTryAt = s.locNextTryAt) ∧
    (failTimes cfg t "locations" cfg.backoffAfterFails s).locNextTryAt =
      t (cfg.backoffAfterFails - 1) + cfg.backoffWindowMs ∧
    (∀ n, n < cfg.backoffAfterFails →
      (failTimes cfg t "states" n s).statesNextTryAt = s.statesNextTryAt) ∧
    (failTimes cfg t "states" cfg.backoffAfterFails s).statesNextTryAt =
      t (cfg.backoffAfterFails - 1) + cfg.backoffWindowMs := by
  obtain ⟨m, hm⟩ : ∃ m, cfg.backoffAfterFails = m + 1 :=
    ⟨cfg.backoffAfterFails - 1, by omega⟩
  refine ⟨fun n hn => (failTimes_loc_below cfg t s h0loc n hn).2, ?_,
    fun n hn => (failTimes_states_below cfg t s h0st n hn).2, ?_⟩
  · obtain ⟨hc, _⟩ := failTimes_loc_below cfg t s h0loc m (by omega)
    rw [hm, failTimes, onFail_locations, hc, if_pos (by omega)]
    simp [hm]
  · obtain ⟨hc, _⟩ := failTimes_states_below cfg t s h0st m (by omega)
    rw [hm, failTimes, onFail_states, hc, if_pos (by omega)]
    simp [hm]

/-- Witness for C3: threshold 3, failures at times 100, 200, 300 from the
initial state; the third failure sets the deadline to 300 + 30000. -/
theorem retrip_requires_full_threshold_witness :
    initialState.locFailCount = 0 ∧ initialState.statesFailCount = 0 ∧
    1 ≤ (⟨"", "", "", true, 2000, 3000, 3, 30000⟩ :
      ServerConfig).backoffAfterFails ∧
    (failTimes ⟨"", "", "", true, 2000, 3000, 3, 30000⟩
        (fun i => 100 * (i + 1)) "locations" 3 initialState).locNextTryAt =
      100 * (3 - 1 + 1) + 30000 :=
  ⟨rfl, rfl, by decide,
    (retrip_requires_full_threshold ⟨"", "", "", true, 2000, 3000, 3, 30000⟩
      (fun i => 100 * (i + 1)) initialState rfl rfl (by decide)).2.1⟩

/-! ### Claim C1 -/

theorem locationsFallThrough_fetchCount (cfg : ServerConfig) (d : String)
    (s : ServerState) (fc : Nat) (fo : Option FetchResult) :
    (locationsFallThrough cfg d s fc fo).fetchCount = fc := by
  unfold locationsFallThrough
  split
  · rfl
  · split <;> rfl

theorem statesFallThrough_fetchCount (cfg : ServerConfig)
    (base : List (List (String × Json))) (rolls : Nat → Rat × Rat)
    (s : ServerState) (fc : Nat) (fo : Option FetchResult) :
    (statesFallThrough cfg base rolls s fc fo).fetchCount = fc := by
  unfold statesFallThrough
  split
  · rfl
  · split <;> rfl

theorem locationsFallThrough_fetchOutcome (cfg : ServerConfig) (d : String)
    (s : ServerState) (fc : Nat) (fo : Option FetchResult) :
    (locationsFallThrough cfg d s fc fo).fetchOutcome = fo := by
  unfold locationsFallThrough
  split
  · rfl
  · split <;> rfl

theorem statesFallThrough_fetchOutcome (cfg : ServerConfig)
    (base : List (List (String × Json))) (rolls : Nat → Rat × Rat)
    (s : ServerState) (fc : Nat) (fo : Option FetchResult) :
    (statesFallThrough cfg base rolls s fc fo).fetchOutcome = fo := by
  unfold statesFallThrough
  split
  · rfl
  · split <;> rfl

/-- C1: every `/api/locations` (resp. `/api/states`) resolution performs at
most one `tryRemote` invocation, and performs none when the request time is
strictly before the resource's backoff deadline or when `toAbs` resolves no
upstream URL for the resource. -/
theorem at_most_one_live_call (cfg : ServerConfig) (net : NetEvent)
    (now : Nat) (demoText : String) (base : List (List (String × Json)))
    (rolls : Nat → Rat × Rat) (s : ServerState) :
    (locationsGet cfg net now demoText s).fetchCount ≤ 1 ∧
    (shouldBackoff now s.locNextTryAt = true ∨
        toAbs cfg.base cfg.locationsUrl = none →
      (locationsGet cfg net now demoText s).fetchCount = 0) ∧
    (statesGet cfg net now base rolls s).fetchCount ≤ 1 ∧
    (shouldBackoff now s.statesNextTryAt = true ∨
        toAbs cfg.base cfg.statesUrl = none →
      (statesGet cfg net now base rolls s).fetchCount = 0) := by
  refine ⟨?_, fun h => ?_, ?_, fun h => ?_⟩
  · simp only [locationsGet]
    split
    · split
      · split <;> simp [locationsFallThrough_fetchCount]
      · simp [locationsFallThrough_fetchCount]
    · simp [locationsFallThrough_fetchCount]
  · simp only [locationsGet]
    split
    · rename_i url hurl
      rcases h with h | h
      · rw [if_neg (by simp [h])]
        simp [locationsFallThrough_fetchCount]
      · rw [hurl] at h
        exact absurd h (by simp)
    · simp [locationsFallThrough_fetchCount]
  · simp only [statesGet]
    split
    · split
      · split <;> simp [statesFallThrough_fetchCount]
      · simp [statesFallThrough_fetchCount]
    · simp [statesFallThrough_fetchCount]
  · simp only [statesGet]
    split
    · rename_i url hurl
      rcases h with h | h
      · rw [if_neg (by simp [h])]
        simp [statesFallThrough_fetchCount]
      · rw [hurl] at h
        exact absurd h (by simp)
    · simp [statesFallThrough_fetchCount]

/-- Witness for C1: a state whose locations backoff deadline is in the
future and a config with no states URL; neither resolution fetches. -/
theorem at_most_one_live_call_witness :
    (shouldBackoff 100 (⟨false, false, ⟨.null, "application/json", 0⟩,
        ⟨.null, "application/json", 0⟩, 0, 0, 500, 0⟩ :
          ServerState).locNextTryAt = true ∨
      toAbs "" "http://x.example/loc" = none) ∧
    (locationsGet ⟨"", "http://x.example/loc", "", true, 2000, 3000, 3,
        30000⟩ (.netError "down") 100 "D"
      ⟨false, false, ⟨.null, "application/json", 0⟩,
        ⟨.null, "application/json", 0⟩, 0, 0, 500, 0⟩).fetchCount = 0 ∧
    (shouldBackoff 100 (⟨false, false, ⟨.null, "application/json", 0⟩,
        ⟨.null, "application/json", 0⟩, 0, 0, 500, 0⟩ :
          ServerState).statesNextTryAt = true ∨
      toAbs "" "" = none) ∧
    (statesGet ⟨"", "http://x.example/loc", "", true, 2000, 3000, 3, 30000⟩
      (.netError "down") 100 [] (fun _ => (0, 0))
      ⟨false, false, ⟨.null, "application/json", 0⟩,
        ⟨.null, "application/json", 0⟩, 0, 0, 500, 0⟩).fetchCount = 0 :=
  ⟨Or.inl rfl,
    (at_most_one_live_call ⟨"", "http://x.example/loc", "", true, 2000, 3000,
        3, 30000⟩ (.netError "down") 100 "D" [] (fun _ => (0, 0))
      ⟨false, false, ⟨.null, "application/json", 0⟩,
        ⟨.null, "application/json", 0⟩, 0, 0, 500, 0⟩).2.1 (Or.inl rfl),
    Or.inr rfl,
    (at_most_one_live_call ⟨"", "http://x.example/loc", "", true, 2000, 3000,
        3, 30000⟩ (.netError "down") 100 "D" [] (fun _ => (0, 0))
      ⟨false, false, ⟨.null, "application/json", 0⟩,
        ⟨.null, "application/json", 0⟩, 0, 0, 500, 0⟩).2.2.2 (Or.inr rfl)⟩

/-! ### Claim C9 -/

/-- C9: `/health` and `/api/proxy` neither mutate nor read any per-resource
state: both return the module state unchanged, and their responses are
identical across arbitrary module states (they depend only on configuration,
the query, and the observed network events). -/
theorem health_proxy_state_independent (cfg : ServerConfig)
    (netLoc netSt net : NetEvent) (queryPath : String) (s s1 s2 : ServerState) :
    (healthGet cfg netLoc netSt s).2 = s ∧
    (proxyGet cfg queryPath net s).2 = s ∧
    (healthGet cfg netLoc netSt s1).1 = (healthGet cfg netLoc netSt s2).1 ∧
    (proxyGet cfg queryPath net s1).1 = (proxyGet cfg queryPath net s2).1 := by
  refine ⟨rfl, ?_, rfl, ?_⟩
  · unfold proxyGet
    split
    · rfl
    · split <;> rfl
  · unfold proxyGet
    split
    · rfl
    · split <;> rfl

/-! ### Claim C10 -/

theorem onFail_flags (cfg : ServerConfig) (now : Nat) (kind : String)
    (s : ServerState) :
    (onFail cfg now kind s).lastLocationsFallback = s.lastLocationsFallback ∧
    (onFail cfg now kind s).lastStatesFallback = s.lastStatesFallback := by
  unfold onFail
  split <;> dsimp only <;> split <;> exact ⟨rfl, rfl⟩

theorem locationsFallThrough_flag (cfg : ServerConfig) (d : String)
    (s : ServerState) (fc : Nat) (fo : Option FetchResult)
    (h : s.lastLocationsFallback = false) :
    (locationsFallThrough cfg d s fc fo).state.lastLocationsFallback =
      ((locationsFallThrough cfg d s fc fo).response.xDemoFallback).isSome := by
  unfold locationsFallThrough
  split
  · simpa using h
  · split
    · rfl
    · simpa using h

theorem statesFallThrough_flag (cfg : ServerConfig)
    (base : List (List (String × Json))) (rolls : Nat → Rat × Rat)
    (s : ServerState) (fc : Nat) (fo : Option FetchResult)
    (h : s.lastStatesFallback = false) :
    (statesFallThrough cfg base rolls s fc fo).state.lastStatesFallback =
      ((statesFallThrough cfg base rolls s fc fo).response.xDemoFallback).isSome := by
  unfold statesFallThrough
  split
  · simpa using h
  · split
    · rfl
    · simpa using h

/-- C10: after any `/api/locations` (resp. `/api/states`) resolution, the
resource's fallback flag is true exactly when that resolution served
synthetic demo data (signalled by the `X-Demo-Fallback` header) — the
handler clears the flag at entry and sets it only on the demo path, so it is
false after live, cached and 500 outcomes alike; and the `fallbackActive`
object `/config` reports is exactly the pair of current flags. -/
theorem fallback_flag_iff_synthetic (cfg : ServerConfig) (net : NetEvent)
    (now : Nat) (demoText : String) (base : List (List (String × Json)))
    (rolls : Nat → Rat × Rat) (s : ServerState) :
    ((locationsGet cfg net now demoText s).state.lastLocationsFallback =
      ((locationsGet cfg net now demoText s).response.xDemoFallback).isSome) ∧
    ((statesGet cfg net now base rolls s).state.lastStatesFallback =
      ((statesGet cfg net now base rolls s).response.xDemoFallback).isSome) ∧
    getKey ((configGet cfg s).1).fields "fallbackActive" =
      .obj [("locations", .bool s.lastLocationsFallback),
            ("states", .bool s.lastStatesFallback)] := by
  refine ⟨?_, ?_, rfl⟩
  · simp only [locationsGet]
    split
    · split
      · split
        · rfl
        · rfl
        · exact locationsFallThrough_flag _ _ _ _ _ (onFail_flags _ _ _ _).1
      · exact locationsFallThrough_flag _ _ _ _ _ rfl
    · exact locationsFallThrough_flag _ _ _ _ _ rfl
  · simp only [statesGet]
    split
    · split
      · split
        · rfl
        · rfl
        · exact statesFallThrough_flag _ _ _ _ _ _ (onFail_flags _ _ _ _).2
      · exact statesFallThrough_flag _ _ _ _ _ _ rfl
    · exact statesFallThrough_flag _ _ _ _ _ _ rfl

/-! ### Case characterizations of the two resource handlers -/

theorem onSuccess_caches (kind : String) (s : ServerState) :
    (onSuccess kind s).cacheLocations = s.cacheLocations ∧
    (onSuccess kind s).cacheStates = s.cacheStates := by
  unfold onSuccess
  split <;> exact ⟨rfl, rfl⟩

theorem locationsGet_skip (cfg : ServerConfig) (net : NetEvent) (now : Nat)
    (d : String) (s : ServerState)
    (h : toAbs cfg.base cfg.locationsUrl = none ∨
      shouldBackoff now s.locNextTryAt = true) :
    locationsGet cfg net now d s =
      locationsFallThrough cfg d { s with lastLocationsFallback := false }
        0 none := by
  rcases h with h | h
  · simp [locationsGet, h]
  · rcases htoAbs : toAbs cfg.base cfg.locationsUrl with _ | url
    · simp [locationsGet, htoAbs]
    · simp [locationsGet, htoAbs, h]

theorem locationsGet_okJson (cfg : ServerConfig) (net : NetEvent) (now : Nat)
    (d : String) (s : ServerState) (url : String) (dat : Json)
    (hurl : toAbs cfg.base cfg.locationsUrl = some url)
    (hb : shouldBackoff now s.locNextTryAt = false)
    (hout : tryRemote (some url) net = .okJson dat) :
    locationsGet cfg net now d s =
      ⟨⟨200, .json dat, "application/json", none, none⟩,
        { onSuccess "locations" { s with lastLocationsFallback := false } with
            cacheLocations := ⟨.json dat, "application/json", now⟩ },
        1, some (.okJson dat)⟩ := by
  simp [locationsGet, hurl, hb, hout]

theorem locationsGet_okText (cfg : ServerConfig) (net : NetEvent) (now : Nat)
    (d : String) (s : ServerState) (url t ct : String)
    (hurl : toAbs cfg.base cfg.locationsUrl = some url)
    (hb : shouldBackoff now s.locNextTryAt = false)
    (hout : tryRemote (some url) net = .okText t ct) :
    locationsGet cfg net now d s =
      ⟨⟨200, .text t, ct, none, none⟩,
        { onSuccess "locations" { s with lastLocationsFallback := false } with
            cacheLocations := ⟨.text t, ct, now⟩ },
        1, some (.okText t ct)⟩ := by
  simp [locationsGet, hurl, hb, hout]

theorem locationsGet_fail (cfg : ServerConfig) (net : NetEvent) (now : Nat)
    (d : String) (s : ServerState) (url : String) (st : Nat) (e txt : String)
    (hurl : toAbs cfg.base cfg.locationsUrl = some url)
    (hb : shouldBackoff now s.locNextTryAt = false)
    (hout : tryRemote (some url) net = .fail st e txt) :
    locationsGet cfg net now d s =
      locationsFallThrough cfg d
        (onFail cfg now "locations" { s with lastLocationsFallback := false })
        1 (some (.fail st e txt)) := by
  simp [locationsGet, hurl, hb, hout]

theorem statesGet_skip (cfg : ServerConfig) (net : NetEvent) (now : Nat)
    (base : List (List (String × Json))) (rolls : Nat → Rat × Rat)
    (s : ServerState)
    (h : toAbs cfg.base cfg.statesUrl = none ∨
      shouldBackoff now s.statesNextTryAt = true) :
    statesGet cfg net now base rolls s =
      statesFallThrough cfg base rolls
        { s with lastStatesFallback := false } 0 none := by
  rcases h with h | h
  · simp [statesGet, h]
  · rcases htoAbs : toAbs cfg.base cfg.statesUrl with _ | url
    · simp [statesGet, htoAbs]
    · simp [statesGet, htoAbs, h]

theorem statesGet_okJson (cfg : ServerConfig) (net : NetEvent) (now : Nat)
    (base : List (List (String × Json))) (rolls : Nat → Rat × Rat)
    (s : ServerState) (url : String) (dat : Json)
    (hurl : toAbs cfg.base cfg.statesUrl = some url)
    (hb : shouldBackoff now s.statesNextTryAt = false)
    (hout : tryRemote (some url) net = .okJson dat) :
    statesGet cfg net now base rolls s =
      ⟨⟨200, .json dat, "application/json", none, none⟩,
        { onSuccess "states" { s with lastStatesFallback := false } with
            cacheStates := ⟨.json dat, "application/json", now⟩ },
        1, some (.okJson dat)⟩ := by
  simp [statesGet, hurl, hb, hout]

theorem statesGet_okText (cfg : ServerConfig) (net : NetEvent) (now : Nat)
    (base : List (List (String × Json))) (rolls : Nat → Rat × Rat)
    (s : ServerState) (url t ct : String)
    (hurl : toAbs cfg.base cfg.statesUrl = some url)
    (hb : shouldBackoff now s.statesNextTryAt = false)
    (hout : tryRemote (some url) net = .okText t ct) :
    statesGet cfg net now base rolls s =
      ⟨⟨200, .text t, ct, none, none⟩,
        { onSuccess "states" { s with lastStatesFallback := false } with
            cacheStates := ⟨.text t, ct, now⟩ },
        1, some (.okText t ct)⟩ := by
  simp [statesGet, hurl, hb, hout]

theorem statesGet_fail (cfg : ServerConfig) (net : NetEvent) (now : Nat)
    (base : List (List (String × Json))) (rolls : Nat → Rat × Rat)
    (s : ServerState) (url : String) (st : Nat) (e txt : String)
    (hurl : toAbs cfg.base cfg.statesUrl = some url)
    (hb : shouldBackoff now s.statesNextTryAt = false)
    (hout : tryRemote (some url) net = .fail st e txt) :
    statesGet cfg net now base rolls s =
      statesFallThrough cfg base rolls
        (onFail cfg now "states" { s with lastStatesFallback := false })
        1 (some (.fail st e txt)) := by
  simp [statesGet, hurl, hb, hout]

/-! ### Claim C5 -/

theorem onFail_caches (cfg : ServerConfig) (now : Nat) (kind : String)
    (s : ServerState) :
    (onFail cfg now kind s).cacheLocations = s.cacheLocations ∧
    (onFail cfg now kind s).cacheStates = s.cacheStates := by
  unfold onFail
  split <;> dsimp only <;> split <;> exact ⟨rfl, rfl⟩

theorem locationsFallThrough_caches (cfg : ServerConfig) (d : String)
    (s : ServerState) (fc : Nat) (fo : Option FetchResult) :
    (locationsFallThrough cfg d s fc fo).state.cacheLocations =
      s.cacheLocations ∧
    (locationsFallThrough cfg d s fc fo).state.cacheStates = s.cacheStates := by
  unfold locationsFallThrough
  split
  · exact ⟨rfl, rfl⟩
  · split <;> exact ⟨rfl, rfl⟩

theorem statesFallThrough_caches (cfg : ServerConfig)
    (base : List (List (String × Json))) (rolls : Nat → Rat × Rat)
    (s : ServerState) (fc : Nat) (fo : Option FetchResult) :
    (statesFallThrough cfg base rolls s fc fo).state.cacheLocations =
      s.cacheLocations ∧
    (statesFallThrough cfg base rolls s fc fo).state.cacheStates =
      s.cacheStates := by
  unfold statesFallThrough
  split
  · exact ⟨rfl, rfl⟩
  · split <;> exact ⟨rfl, rfl⟩

/-- C5: a resource's cache is written exactly by the success branch of a
live fetch in that resource's own handler — after a resolution it equals the
fetched payload when the fetch outcome was a success and is unchanged
otherwise (failed fetch, backoff skip, demo fallback, 500) — the other
resource's handler leaves it untouched, and `/config`, `/health` and
`/api/proxy` leave the whole module state untouched. -/
theorem cache_written_only_by_fetch_success (cfg : ServerConfig)
    (net netLoc netSt : NetEvent) (now : Nat) (demoText queryPath : String)
    (base : List (List (String × Json))) (rolls : Nat → Rat × Rat)
    (s : ServerState) :
    ((locationsGet cfg net now demoText s).state.cacheLocations =
      (match (locationsGet cfg net now demoText s).fetchOutcome with
        | some (.okJson dat) => ⟨.json dat, "application/json", now⟩
        | some (.okText t ct) => ⟨.text t, ct, now⟩
        | _ => s.cacheLocations)) ∧
    (locationsGet cfg net now demoText s).state.cacheStates = s.cacheStates ∧
    ((statesGet cfg net now base rolls s).state.cacheStates =
      (match (statesGet cfg net now base rolls s).fetchOutcome with
        | some (.okJson dat) => ⟨.json dat, "application/json", now⟩
        | some (.okText t ct) => ⟨.text t, ct, now⟩
        | _ => s.cacheStates)) ∧
    (statesGet cfg net now base rolls s).state.cacheLocations =
      s.cacheLocations ∧
    (configGet cfg s).2 = s ∧ (healthGet cfg netLoc netSt s).2 = s ∧
    (proxyGet cfg queryPath net s).2 = s := by
  refine ⟨?_, ?_, ?_, ?_, rfl, rfl, ?_⟩
  · rcases htoAbs : toAbs cfg.base cfg.locationsUrl with _ | url
    · rw [locationsGet_skip cfg net now demoText s (Or.inl htoAbs),
        locationsFallThrough_fetchOutcome]
      exact (locationsFallThrough_caches _ _ _ _ _).1
    · cases hb : shouldBackoff now s.locNextTryAt
      · rcases hout : tryRemote (some url) net with dat | ⟨t, ct⟩ | ⟨st, e, txt⟩
        · rw [locationsGet_okJson cfg net now demoText s url dat htoAbs hb hout]
        · rw [locationsGet_okText cfg net now demoText s url t ct htoAbs hb hout]
        · rw [locationsGet_fail cfg net now demoText s url st e txt htoAbs hb
            hout, locationsFallThrough_fetchOutcome]
          exact ((locationsFallThrough_caches _ _ _ _ _).1.trans
            (onFail_caches _ _ _ _).1)
      · rw [locationsGet_skip cfg net now demoText s (Or.inr hb),
          locationsFallThrough_fetchOutcome]
        exact (locationsFallThrough_caches _ _ _ _ _).1
  · rcases htoAbs : toAbs cfg.base cfg.locationsUrl with _ | url
    · rw [locationsGet_skip cfg net now demoText s (Or.inl htoAbs)]
      exact (locationsFallThrough_caches _ _ _ _ _).2
    · cases hb : shouldBackoff now s.locNextTryAt
      · rcases hout : tryRemote (some url) net with dat | ⟨t, ct⟩ | ⟨st, e, txt⟩
        · rw [locationsGet_okJson cfg net now demoText s url dat htoAbs hb hout]
          exact (onSuccess_caches "locations"
            { s with lastLocationsFallback := false }).2
        · rw [locationsGet_okText cfg net now demoText s url t ct htoAbs hb hout]
          exact (onSuccess_caches "locations"
            { s with lastLocationsFallback := false }).2
        · rw [locationsGet_fail cfg net now demoText s url st e txt htoAbs hb
            hout]
          exact ((locationsFallThrough_caches _ _ _ _ _).2.trans
            (onFail_caches _ _ _ _).2)
      · rw [locationsGet_skip cfg net now demoText s (Or.inr hb)]
        exact (locationsFallThrough_caches _ _ _ _ _).2
  · rcases htoAbs : toAbs cfg.base cfg.statesUrl with _ | url
    · rw [statesGet_skip cfg net now base rolls s (Or.inl htoAbs),
        statesFallThrough_fetchOutcome]
      exact (statesFallThrough_caches _ _ _ _ _ _).2
    · cases hb : shouldBackoff now s.statesNextTryAt
      · rcases hout : tryRemote (some url) net with dat | ⟨t, ct⟩ | ⟨st, e, txt⟩
        · rw [statesGet_okJson cfg net now base rolls s url dat htoAbs hb hout]
        · rw [statesGet_okText cfg net now base rolls s url t ct htoAbs hb hout]
        · rw [statesGet_fail cfg net now base rolls s url st e txt htoAbs hb
            hout, statesFallThrough_fetchOutcome]
          exact ((statesFallThrough_caches _ _ _ _ _ _).2.trans
            (onFail_caches _ _ _ _).2)
      · rw [statesGet_skip cfg net now base rolls s (Or.inr hb),
          statesFallThrough_fetchOutcome]
        exact (statesFallThrough_caches _ _ _ _ _ _).2
  · rcases htoAbs : toAbs cfg.base cfg.statesUrl with _ | url
    · rw [statesGet_skip cfg net now base rolls s (Or.inl htoAbs)]
      exact (statesFallThrough_caches _ _ _ _ _ _).1
    · cases hb : shouldBackoff now s.statesNextTryAt
      · rcases hout : tryRemote (some url) net with dat | ⟨t, ct⟩ | ⟨st, e, txt⟩
        · rw [statesGet_okJson cfg net now base rolls s url dat htoAbs hb hout]
          exact (onSuccess_caches "states"
            { s with lastStatesFallback := false }).1
        · rw [statesGet_okText cfg net now base rolls s url t ct htoAbs hb hout]
          exact (onSuccess_caches "states"
            { s with lastStatesFallback := false }).1
        · rw [statesGet_fail cfg net now base rolls s url st e txt htoAbs hb
            hout]
          exact ((statesFallThrough_caches _ _ _ _ _ _).1.trans
            (onFail_caches _ _ _ _).1)
      · rw [statesGet_skip cfg net now base rolls s (Or.inr hb)]
        exact (statesFallThrough_caches _ _ _ _ _ _).1
  · unfold proxyGet
    split
    · rfl
    · split <;> rfl

/-! ### Claim C6 -/

theorem locationsFallThrough_unavailable (cfg : ServerConfig) (d : String)
    (s : ServerState) (fc : Nat) (fo : Option FetchResult)
    (hc : s.cacheLocations.data.truthy = false)
    (hd : cfg.demoConfigured = false) :
    (locationsFallThrough cfg d s fc fo).response =
      ⟨500, .json (.obj [("error",
          .str "LOCATIONS_URL failed, and demo mode disabled")]),
        "application/json", none, none⟩ := by
  unfold locationsFallThrough
  rw [if_neg (by simp [hc]), if_neg (by simp [hd])]

theorem statesFallThrough_unavailable (cfg : ServerConfig)
    (base : List (List (String × Json))) (rolls : Nat → Rat × Rat)
    (s : ServerState) (fc : Nat) (fo : Option FetchResult)
    (hc : s.cacheStates.data.truthy = false)
    (hd : cfg.demoConfigured = false) :
    (statesFallThrough cfg base rolls s fc fo).response =
      ⟨500, .json (.obj [("error",
          .str "STATES_URL failed, and demo mode disabled")]),
        "application/json", none, none⟩ := by
  unfold statesFallThrough
  rw [if_neg (by simp [hc]), if_neg (by simp [hd])]

/-- C6: for any resolution of either resource in which demo mode is
disabled, that resource's live fetch fails or is skipped, and that
resource's cache is empty (its `data` slot is falsy) — regardless of the
other resource's state — the endpoint answers with HTTP 500 and a
structured JSON error body naming the failed resource's URL variable; the
handler is a total function, so no fault escapes it. -/
theorem unavailable_yields_500 (cfg : ServerConfig) (net : NetEvent)
    (now : Nat) (demoText : String) (base : List (List (String × Json)))
    (rolls : Nat → Rat × Rat) (s : ServerState) :
    (cfg.demoConfigured = false →
      s.cacheLocations.data.truthy = false →
      liveFailsOrSkippedLoc cfg net now s = true →
      (locationsGet cfg net now demoText s).response =
        ⟨500, .json (.obj [("error",
            .str "LOCATIONS_URL failed, and demo mode disabled")]),
          "application/json", none, none⟩) ∧
    (cfg.demoConfigured = false →
      s.cacheStates.data.truthy = false →
      liveFailsOrSkippedStates cfg net now s = true →
      (statesGet cfg net now base rolls s).response =
        ⟨500, .json (.obj [("error",
            .str "STATES_URL failed, and demo mode disabled")]),
          "application/json", none, none⟩) := by
  constructor
  · intro hdemo hcl hfl
    rcases htoAbs : toAbs cfg.base cfg.locationsUrl with _ | url
    · rw [locationsGet_skip cfg net now demoText s (Or.inl htoAbs)]
      exact locationsFallThrough_unavailable _ _ _ _ _ hcl hdemo
    · cases hb : shouldBackoff now s.locNextTryAt
      · have hnotOk : (tryRemote (some url) net).isOk = false := by
          unfold liveFailsOrSkippedLoc at hfl
          rw [htoAbs] at hfl
          simpa [hb] using hfl
        rcases htry : tryRemote (some url) net with dat | ⟨t, ct⟩ | ⟨st, e, txt⟩
        · rw [htry] at hnotOk
          exact absurd hnotOk (by simp [FetchResult.isOk])
        · rw [htry] at hnotOk
          exact absurd hnotOk (by simp [FetchResult.isOk])
        · rw [locationsGet_fail cfg net now demoText s url st e txt htoAbs hb
            htry]
          refine locationsFallThrough_unavailable _ _ _ _ _ ?_ hdemo
          rw [(onFail_caches _ _ _ _).1]
          exact hcl
      · rw [locationsGet_skip cfg net now demoText s (Or.inr hb)]
        exact locationsFallThrough_unavailable _ _ _ _ _ hcl hdemo
  · intro hdemo hcs hfs
    rcases htoAbs : toAbs cfg.base cfg.statesUrl with _ | url
    · rw [statesGet_skip cfg net now base rolls s (Or.inl htoAbs)]
      exact statesFallThrough_unavailable _ _ _ _ _ _ hcs hdemo
    · cases hb : shouldBackoff now s.statesNextTryAt
      · have hnotOk : (tryRemote (some url) net).isOk = false := by
          unfold liveFailsOrSkippedStates at hfs
          rw [htoAbs] at hfs
          simpa [hb] using hfs
        rcases htry : tryRemote (some url) net with dat | ⟨t, ct⟩ | ⟨st, e, txt⟩
        · rw [htry] at hnotOk
          exact absurd hnotOk (by simp [FetchResult.isOk])
        · rw [htry] at hnotOk
          exact absurd hnotOk (by simp [FetchResult.isOk])
        · rw [statesGet_fail cfg net now base rolls s url st e txt htoAbs hb
            htry]
          refine statesFallThrough_unavailable _ _ _ _ _ _ ?_ hdemo
          rw [(onFail_caches _ _ _ _).2]
          exact hcs
      · rw [statesGet_skip cfg net now base rolls s (Or.inr hb)]
        exact statesFallThrough_unavailable _ _ _ _ _ _ hcs hdemo

/-- Witness for C6: demo disabled, no locations URL, locations cache empty
while the states cache is populated; the locations resolution answers 500
with the structured error body regardless of the states resource. -/
theorem unavailable_yields_500_witness :
    (⟨"", "", "", false, 2000, 3000, 3, 30000⟩ :
      ServerConfig).demoConfigured = false ∧
    (⟨false, false, ⟨.null, "application/json", 0⟩,
        ⟨.json (.str "Y"), "application/json", 5⟩, 0, 0, 0, 0⟩ :
      ServerState).cacheLocations.data.truthy = false ∧
    liveFailsOrSkippedLoc ⟨"", "", "", false, 2000, 3000, 3, 30000⟩
      (.netError "down") 0
      ⟨false, false, ⟨.null, "application/json", 0⟩,
        ⟨.json (.str "Y"), "application/json", 5⟩, 0, 0, 0, 0⟩ = true ∧
    (locationsGet ⟨"", "", "", false, 2000, 3000, 3, 30000⟩
        (.netError "down") 0 "D"
        ⟨false, false, ⟨.null, "application/json", 0⟩,
          ⟨.json (.str "Y"), "application/json", 5⟩, 0, 0, 0, 0⟩).response =
      ⟨500, .json (.obj [("error",
          .str "LOCATIONS_URL failed, and demo mode disabled")]),
        "application/json", none, none⟩ :=
  ⟨rfl, rfl, rfl,
    (unavailable_yields_500 ⟨"", "", "", false, 2000, 3000, 3, 30000⟩
      (.netError "down") 0 "D" [] (fun _ => (0, 0))
      ⟨false, false, ⟨.null, "application/json", 0⟩,
        ⟨.json (.str "Y"), "application/json", 5⟩, 0, 0, 0, 0⟩).1
      rfl rfl rfl⟩

/-! ### Claim C4 -/

theorem locationsFallThrough_cached (cfg : ServerConfig) (d : String)
    (s : ServerState) (fc : Nat) (fo : Option FetchResult)
    (hc : s.cacheLocations.data.truthy = true) :
    (locationsFallThrough cfg d s fc fo).response =
      ⟨200, s.cacheLocations.data, s.cacheLocations.contentType,
        some "hit-locations", none⟩ := by
  unfold locationsFallThrough
  rw [if_pos hc]

theorem statesFallThrough_cached (cfg : ServerConfig)
    (base : List (List (String × Json))) (rolls : Nat → Rat × Rat)
    (s : ServerState) (fc : Nat) (fo : Option FetchResult)
    (hc : s.cacheStates.data.truthy = true) :
    (statesFallThrough cfg base rolls s fc fo).response =
      ⟨200, s.cacheStates.data, s.cacheStates.contentType,
        some "hit-states", none⟩ := by
  unfold statesFallThrough
  rw [if_pos hc]

/-- C4 is false as stated: a successful live fetch can store a JavaScript-
falsy payload (here an empty text body) in the cache; on the next resolution
whose live call fails, `if (cacheLocations.data)` rejects that cached value
and the demo path is taken instead of serving the cache. -/
theorem cached_value_not_served_counterexample :
    c4run1.fetchOutcome = some (.okText "" "text/plain") ∧
    c4run1.state.cacheLocations.data = .text "" ∧
    c4run2.fetchOutcome = some (.fail 502 "ECONNREFUSED" "") ∧
    c4run2.response.xDemoFallback = some "locations" ∧
    c4run2.response.xCache = none ∧
    c4run2.response.body = .text "DEMO" :=
  ⟨rfl, rfl, rfl, rfl, rfl, rfl⟩

/-- C4 (amended): for every resolution in which the cache holds a
JavaScript-truthy value (as every non-degenerate earlier success leaves it;
falsy payloads — empty text, JSON `null`/`false`/`0`/`""` — are the
exception shown in the counterexample) and the live call fails or is
skipped, the response is exactly the cached value with the cached content
type, status 200 and an `X-Cache: hit-locations` (resp. `hit-states`)
header, and the demo path is not taken. -/
theorem cached_value_served_on_failure (cfg : ServerConfig) (net : NetEvent)
    (now : Nat) (demoText : String) (base : List (List (String × Json)))
    (rolls : Nat → Rat × Rat) (s : ServerState) :
    (s.cacheLocations.data.truthy = true →
      liveFailsOrSkippedLoc cfg net now s = true →
      (locationsGet cfg net now demoText s).response =
        ⟨200, s.cacheLocations.data, s.cacheLocations.contentType,
          some "hit-locations", none⟩) ∧
    (s.cacheStates.data.truthy = true →
      liveFailsOrSkippedStates cfg net now s = true →
      (statesGet cfg net now base rolls s).response =
        ⟨200, s.cacheStates.data, s.cacheStates.contentType,
          some "hit-states", none⟩) := by
  constructor
  · intro hcl hfl
    rcases htoAbs : toAbs cfg.base cfg.locationsUrl with _ | url
    · rw [locationsGet_skip cfg net now demoText s (Or.inl htoAbs)]
      exact locationsFallThrough_cached _ _ _ _ _ hcl
    · cases hb : shouldBackoff now s.locNextTryAt
      · have hnotOk : (tryRemote (some url) net).isOk = false := by
          unfold liveFailsOrSkippedLoc at hfl
          rw [htoAbs] at hfl
          simpa [hb] using hfl
        rcases htry : tryRemote (some url) net with dat | ⟨t, ct⟩ | ⟨st, e, txt⟩
        · rw [htry] at hnotOk
          exact absurd hnotOk (by simp [FetchResult.isOk])
        · rw [htry] at hnotOk
          exact absurd hnotOk (by simp [FetchResult.isOk])
        · rw [locationsGet_fail cfg net now demoText s url st e txt htoAbs hb
            htry]
          refine locationsFallThrough_cached _ _ _ _ _ ?_ |>.trans ?_
          · rw [(onFail_caches _ _ _ _).1]
            exact hcl
          · rw [(onFail_caches _ _ _ _).1]
      · rw [locationsGet_skip cfg net now demoText s (Or.inr hb)]
        exact locationsFallThrough_cached _ _ _ _ _ hcl
  · intro hcs hfs
    rcases htoAbs : toAbs cfg.base cfg.statesUrl with _ | url
    · rw [statesGet_skip cfg net now base rolls s (Or.inl htoAbs)]
      exact statesFallThrough_cached _ _ _ _ _ _ hcs
    · cases hb : shouldBackoff now s.statesNextTryAt
      · have hnotOk : (tryRemote (some url) net).isOk = false := by
          unfold liveFailsOrSkippedStates at hfs
          rw [htoAbs] at hfs
          simpa [hb] using hfs
        rcases htry : tryRemote (some url) net with dat | ⟨t, ct⟩ | ⟨st, e, txt⟩
        · rw [htry] at hnotOk
          exact absurd hnotOk (by simp [FetchResult.isOk])
        · rw [htry] at hnotOk
          exact absurd hnotOk (by simp [FetchResult.isOk])
        · rw [statesGet_fail cfg net now base rolls s url st e txt htoAbs hb
            htry]
          refine statesFallThrough_cached _ _ _ _ _ _ ?_ |>.trans ?_
          · rw [(onFail_caches _ _ _ _).2]
            exact hcs
          · rw [(onFail_caches _ _ _ _).2]
      · rw [statesGet_skip cfg net now base rolls s (Or.inr hb)]
        exact statesFallThrough_cached _ _ _ _ _ _ hcs

/-- Witness for the amended C4: truthy caches for both resources, no URLs
configured (live skipped); both responses are the cached values. -/
theorem cached_value_served_on_failure_witness :
    ((⟨false, false, ⟨.text "X", "text/plain", 10⟩,
        ⟨.json (.str "Y"), "application/json", 20⟩, 0, 0, 0, 0⟩ :
      ServerState).cacheLocations.data.truthy = true ∧
      liveFailsOrSkippedLoc ⟨"", "", "", true, 2000, 3000, 3, 30000⟩
        (.netError "down") 0
        ⟨false, false, ⟨.text "X", "text/plain", 10⟩,
          ⟨.json (.str "Y"), "application/json", 20⟩, 0, 0, 0, 0⟩ = true ∧
      (locationsGet ⟨"", "", "", true, 2000, 3000, 3, 30000⟩
          (.netError "down") 0 "D"
          ⟨false, false, ⟨.text "X", "text/plain", 10⟩,
            ⟨.json (.str "Y"), "application/json", 20⟩, 0, 0, 0, 0⟩).response =
        ⟨200, .text "X", "text/plain", some "hit-locations", none⟩) ∧
    (statesGet ⟨"", "", "", true, 2000, 3000, 3, 30000⟩ (.netError "down") 0
        [] (fun _ => (0, 0))
        ⟨false, false, ⟨.text "X", "text/plain", 10⟩,
          ⟨.json (.str "Y"), "application/json", 20⟩, 0, 0, 0, 0⟩).response =
      ⟨200, .json (.str "Y"), "application/json", some "hit-states", none⟩ :=
  ⟨⟨rfl, rfl,
    (cached_value_served_on_failure ⟨"", "", "", true, 2000, 3000, 3, 30000⟩
      (.netError "down") 0 "D" [] (fun _ => (0, 0))
      ⟨false, false, ⟨.text "X", "text/plain", 10⟩,
        ⟨.json (.str "Y"), "application/json", 20⟩, 0, 0, 0, 0⟩).1 rfl rfl⟩,
    (cached_value_served_on_failure ⟨"", "", "", true, 2000, 3000, 3, 30000⟩
      (.netError "down") 0 "D" [] (fun _ => (0, 0))
      ⟨false, false, ⟨.text "X", "text/plain", 10⟩,
        ⟨.json (.str "Y"), "application/json", 20⟩, 0, 0, 0, 0⟩).2 rfl rfl⟩

/-! ### Claim C8 -/

/-- C8 is false as stated: with an absent (empty) URL, no failure outcome
tagged "not configured" is produced anywhere. The endpoint handlers never
invoke `tryRemote` at all (zero fetch invocations, no fetch outcome), and
`tryRemote` itself, if handed the absent URL, returns the generic transport
failure from the URL-parse `TypeError` (status 502) — no code path yields a
"not configured" tag. -/
theorem no_not_configured_outcome_counterexample :
    (locationsGet c8cfg (.netError "x") 0 "D" initialState).fetchCount = 0 ∧
    (locationsGet c8cfg (.netError "x") 0 "D" initialState).fetchOutcome =
      none ∧
    (statesGet c8cfg (.netError "x") 0 [] (fun _ => (0, 0))
      initialState).fetchCount = 0 ∧
    (statesGet c8cfg (.netError "x") 0 [] (fun _ => (0, 0))
      initialState).fetchOutcome = none ∧
    tryRemote none (.netError "x") =
      .fail 502 "TypeError: Failed to parse URL from null" "" ∧
    "TypeError: Failed to parse URL from null" ≠ "not configured" :=
  ⟨rfl, rfl, rfl, rfl, rfl, by decide⟩

/-- C8 (amended): given an absent (empty) URL input, no network call is
made and no fetch outcome is produced at all: `toAbs` resolves to null and
each handler's guard skips the fetcher entirely, falling through to
cache/demo/error; and a `tryRemote` invocation on a null URL performs zero
network calls (its `fetch(null)` rejects during URL parsing). -/
theorem absent_url_no_fetch (cfg : ServerConfig) (net : NetEvent) (now : Nat)
    (demoText : String) (base : List (List (String × Json)))
    (rolls : Nat → Rat × Rat) (s : ServerState)
    (hL : cfg.locationsUrl = "") (hS : cfg.statesUrl = "") :
    toAbs cfg.base cfg.locationsUrl = none ∧
    (locationsGet cfg net now demoText s).fetchCount = 0 ∧
    (locationsGet cfg net now demoText s).fetchOutcome = none ∧
    toAbs cfg.base cfg.statesUrl = none ∧
    (statesGet cfg net now base rolls s).fetchCount = 0 ∧
    (statesGet cfg net now base rolls s).fetchOutcome = none ∧
    tryRemoteNetCalls none = 0 := by
  have habsL : toAbs cfg.base cfg.locationsUrl = none := by
    rw [hL]
    simp [toAbs]
  have habsS : toAbs cfg.base cfg.statesUrl = none := by
    rw [hS]
    simp [toAbs]
  refine ⟨habsL, ?_, ?_, habsS, ?_, ?_, rfl⟩
  · rw [locationsGet_skip cfg net now demoText s (Or.inl habsL)]
    exact locationsFallThrough_fetchCount _ _ _ _ _
  · rw [locationsGet_skip cfg net now demoText s (Or.inl habsL)]
    exact locationsFallThrough_fetchOutcome _ _ _ _ _
  · rw [statesGet_skip cfg net now base rolls s (Or.inl habsS)]
    exact statesFallThrough_fetchCount _ _ _ _ _ _
  · rw [statesGet_skip cfg net now base rolls s (Or.inl habsS)]
    exact statesFallThrough_fetchOutcome _ _ _ _ _ _

/-- Witness for the amended C8 at the default (empty) URL configuration. -/
theorem absent_url_no_fetch_witness :
    (⟨"http://base.example", "", "", true, 2000, 3000, 3, 30000⟩ :
      ServerConfig).locationsUrl = "" ∧
    (locationsGet ⟨"http://base.example", "", "", true, 2000, 3000, 3,
        30000⟩ (.response 200 "application/json" "{}" (some (.obj []))) 5
      "D" initialState).fetchCount = 0 ∧
    (statesGet ⟨"http://base.example", "", "", true, 2000, 3000, 3, 30000⟩
      (.response 200 "application/json" "{}" (some (.obj []))) 5 []
      (fun _ => (0, 0)) initialState).fetchOutcome = none :=
  ⟨rfl,
    (absent_url_no_fetch ⟨"http://base.example", "", "", true, 2000, 3000, 3,
        30000⟩ (.response 200 "application/json" "{}" (some (.obj []))) 5 "D"
      [] (fun _ => (0, 0)) initialState rfl rfl).2.1,
    (absent_url_no_fetch ⟨"http://base.example", "", "", true, 2000, 3000, 3,
        30000⟩ (.response 200 "application/json" "{}" (some (.obj []))) 5 "D"
      [] (fun _ => (0, 0)) initialState rfl rfl).2.2.2.2.2.1⟩

/-! ### Claim C7: helper lemmas on the demo randomization -/

theorem setKey_cons (k : String) (v : Json) (a : String) (b : Json)
    (tl : List (String × Json)) :
    setKey ((a, b) :: tl) k v =
      (if a = k then (a, v) else (a, b)) :: setKey tl k v := rfl

theorem getKey_cons (a : String) (b : Json) (tl : List (String × Json))
    (k : String) :
    getKey ((a, b) :: tl) k = if a = k then b else getKey tl k := rfl

theorem setKey_keys (k : String) (v : Json) (e : List (String × Json)) :
    (setKey e k v).map Prod.fst = e.map Prod.fst := by
  induction e with
  | nil => rfl
  | cons hd tl ih =>
    obtain ⟨a, b⟩ := hd
    rw [setKey_cons]
    by_cases h : a = k
    · rw [if_pos h]
      simp only [List.map_cons, ih]
    · rw [if_neg h]
      simp only [List.map_cons, ih]

theorem setKey_not_mem (k : String) (v : Json) (e : List (String × Json))
    (h : k ∉ e.map Prod.fst) : setKey e k v = e := by
  induction e with
  | nil => rfl
  | cons hd tl ih =>
    obtain ⟨a, b⟩ := hd
    simp only [List.map_cons, List.mem_cons, not_or] at h
    rw [setKey_cons, if_neg (fun hh => h.1 hh.symm), ih h.2]

theorem getKey_setKey_ne (k k' : String) (v : Json)
    (e : List (String × Json)) (h : k' ≠ k) :
    getKey (setKey e k v) k' = getKey e k' := by
  induction e with
  | nil => rfl
  | cons hd tl ih =>
    obtain ⟨a, b⟩ := hd
    rw [setKey_cons]
    by_cases hak : a = k
    · have hne : ¬ a = k' := fun hh => h (hh.symm.trans hak)
      rw [if_pos hak, getKey_cons, getKey_cons, if_neg (hak ▸ hne),
        if_neg hne, ih]
    · rw [if_neg hak, getKey_cons, getKey_cons, ih]

theorem getKey_setKey_mem (k : String) (v : Json) (e : List (String × Json))
    (h : k ∈ e.map Prod.fst) : getKey (setKey e k v) k = v := by
  induction e with
  | nil => simp at h
  | cons hd tl ih =>
    obtain ⟨a, b⟩ := hd
    rw [setKey_cons]
    by_cases hak : a = k
    · rw [if_pos hak, getKey_cons, if_pos hak]
    · rw [if_neg hak, getKey_cons, if_neg hak]
      refine ih ?_
      simp only [List.map_cons, List.mem_cons] at h
      rcases h with h | h
      · exact absurd h.symm hak
      · exact h

theorem setKey_getKey_self (k : String) (e : List (String × Json))
    (hmem : k ∈ e.map Prod.fst) (hnd : (e.map Prod.fst).Nodup) :
    setKey e k (getKey e k) = e := by
  induction e with
  | nil => rfl
  | cons hd tl ih =>
    obtain ⟨a, b⟩ := hd
    simp only [List.map_cons, List.nodup_cons] at hnd
    by_cases hak : a = k
    · subst hak
      rw [getKey_cons, if_pos rfl, setKey_cons, if_pos rfl,
        setKey_not_mem a b tl hnd.1]
    · rw [getKey_cons, if_neg hak, setKey_cons, if_neg hak]
      simp only [List.map_cons, List.mem_cons] at hmem
      rcases hmem with h | h
      · exact absurd h.symm hak
      · rw [ih h hnd.2]

theorem demoRandomize_length (base : List (List (String × Json))) :
    ∀ rolls, (demoRandomize base rolls).length = base.length := by
  induction base with
  | nil => intro _; rfl
  | cons e es ih => intro rolls; simp [demoRandomize, ih]

theorem demoRandomize_getD (base : List (List (String × Json))) :
    ∀ (rolls : Nat → Rat × Rat) (i : Nat), i < base.length →
      (demoRandomize base rolls).getD i [] =
        rerollEntry (rolls i).1 (rolls i).2 (base.getD i []) := by
  induction base with
  | nil => intro _ i h; simp at h
  | cons e es ih =>
    intro rolls i h
    cases i with
    | zero => rfl
    | succ n => exact ih (fun j => rolls (j + 1)) n (by simpa using h)

theorem pick_idx_lt (r2 : Rat) (_h0 : 0 ≤ r2) (h1 : r2 < 1) :
    ((r2 * 12).floor).toNat < 12 := by
  have he : (r2 * 12).floor = ⌊r2 * 12⌋ := rfl
  have hb : ⌊r2 * 12⌋ < (12 : Int) := Int.floor_lt.2 (by push_cast; nlinarith)
  rw [he]
  omega

theorem pickCandidate_mem (r2 : Rat) (h0 : 0 ≤ r2) (h1 : r2 < 1) :
    pickCandidate r2 ∈ demoCandidates := by
  unfold pickCandidate
  rw [List.getD_eq_getElem _ _
    (by simpa [demoCandidates] using pick_idx_lt r2 h0 h1)]
  exact List.getElem_mem _

theorem pickCandidate_uniform (r2 : Rat) (j : Nat)
    (hlo : (j : Rat) ≤ r2 * 12) (hhi : r2 * 12 < (j : Rat) + 1) :
    pickCandidate r2 = demoCandidates.getD j "" := by
  unfold pickCandidate
  have he : (r2 * 12).floor = ⌊r2 * 12⌋ := rfl
  have hfl : ⌊r2 * 12⌋ = (j : Int) :=
    Int.floor_eq_iff.2 ⟨by push_cast; exact hlo, by push_cast; exact hhi⟩
  rw [he, hfl]
  simp

theorem statesFallThrough_demo (cfg : ServerConfig)
    (base : List (List (String × Json))) (rolls : Nat → Rat × Rat)
    (s : ServerState) (fc : Nat) (fo : Option FetchResult)
    (hc : s.cacheStates.data.truthy = false)
    (hd : cfg.demoConfigured = true) :
    (statesFallThrough cfg base rolls s fc fo).response =
      ⟨200, .json (.arr ((demoRandomize base rolls).map Json.obj)),
        "application/json", none, some "states"⟩ := by
  unfold statesFallThrough
  rw [if_neg (by simp [hc]), if_pos hd]

theorem rerollEntry_keys (r1 r2 : Rat) (e : List (String × Json)) :
    (rerollEntry r1 r2 e).map Prod.fst = e.map Prod.fst :=
  setKey_keys _ _ _

theorem rerollEntry_getKey_ne (r1 r2 : Rat) (e : List (String × Json))
    (k : String) (h : k ≠ "state") :
    getKey (rerollEntry r1 r2 e) k = getKey e k :=
  getKey_setKey_ne _ _ _ _ h

theorem rerollEntry_mutate (r1 r2 : Rat) (e : List (String × Json))
    (h : r1 < 1/4) (hmem : "state" ∈ e.map Prod.fst) :
    getKey (rerollEntry r1 r2 e) "state" = .str (pickCandidate r2) := by
  unfold rerollEntry
  rw [if_pos h]
  exact getKey_setKey_mem _ _ _ hmem

theorem rerollEntry_noMutate (r1 r2 : Rat) (e : List (String × Json))
    (h : ¬ r1 < 1/4) (hmem : "state" ∈ e.map Prod.fst)
    (hnd : (e.map Prod.fst).Nodup) :
    rerollEntry r1 r2 e = e := by
  unfold rerollEntry
  rw [if_neg h]
  exact setKey_getKey_self _ _ hmem hnd

/-- C7: on the demo path of `/api/states` (demo configured, cache falsy,
live call failed or skipped) the response is exactly the randomized
baseline, with the `X-Demo-Fallback: states` header; the randomization
keeps the number and order of entries and every entry's key list, leaves
every field other than `state` unchanged, re-rolls entry `i`'s `state`
exactly when its first draw is below 1/4 (probability 25% for a uniform
draw) to a member of the fixed candidate pool, leaves the entry exactly
equal to the baseline otherwise, and picks pool element `j` exactly when
the second draw lies in `[j/12, (j+1)/12)` — twelve equal-width intervals,
i.e. uniformly over the pool. -/
theorem demo_states_randomization (cfg : ServerConfig) (net : NetEvent)
    (now : Nat) (base : List (List (String × Json)))
    (rolls : Nat → Rat × Rat) (s : ServerState)
    (hdemo : cfg.demoConfigured = true)
    (hcache : s.cacheStates.data.truthy = false)
    (hfail : liveFailsOrSkippedStates cfg net now s = true)
    (hrolls : ∀ i, 0 ≤ (rolls i).1 ∧ (rolls i).1 < 1 ∧
      0 ≤ (rolls i).2 ∧ (rolls i).2 < 1)
    (hkeys : ∀ e ∈ base, "state" ∈ e.map Prod.fst ∧
      (e.map Prod.fst).Nodup) :
    (statesGet cfg net now base rolls s).response =
      ⟨200, .json (.arr ((demoRandomize base rolls).map Json.obj)),
        "application/json", none, some "states"⟩ ∧
    (demoRandomize base rolls).length = base.length ∧
    (∀ i, i < base.length →
      ((demoRandomize base rolls).getD i []).map Prod.fst =
        (base.getD i []).map Prod.fst ∧
      (∀ k, k ≠ "state" →
        getKey ((demoRandomize base rolls).getD i []) k =
          getKey (base.getD i []) k) ∧
      ((rolls i).1 < 1/4 →
        getKey ((demoRandomize base rolls).getD i []) "state" =
          .str (pickCandidate (rolls i).2) ∧
        pickCandidate (rolls i).2 ∈ demoCandidates) ∧
      (¬ (rolls i).1 < 1/4 →
        (demoRandomize base rolls).getD i [] = base.getD i [])) ∧
    (∀ i j : Nat, (j : Rat) ≤ (rolls i).2 * 12 →
      (rolls i).2 * 12 < (j : Rat) + 1 →
      pickCandidate (rolls i).2 = demoCandidates.getD j "") := by
  have hmem : ∀ i, i < base.length →
      "state" ∈ (base.getD i []).map Prod.fst ∧
      ((base.getD i []).map Prod.fst).Nodup := by
    intro i hi
    apply hkeys
    rw [List.getD_eq_getElem _ _ hi]
    exact List.getElem_mem _
  refine ⟨?_, demoRandomize_length base rolls, ?_, ?_⟩
  · rcases htoAbs : toAbs cfg.base cfg.statesUrl with _ | url
    · rw [statesGet_skip cfg net now base rolls s (Or.inl htoAbs)]
      exact statesFallThrough_demo _ _ _ _ _ _ hcache hdemo
    · cases hb : shouldBackoff now s.statesNextTryAt
      · have hnotOk : (tryRemote (some url) net).isOk = false := by
          unfold liveFailsOrSkippedStates at hfail
          rw [htoAbs] at hfail
          simpa [hb] using hfail
        rcases htry : tryRemote (some url) net with dat | ⟨t, ct⟩ | ⟨st, e, txt⟩
        · rw [htry] at hnotOk
          exact absurd hnotOk (by simp [FetchResult.isOk])
        · rw [htry] at hnotOk
          exact absurd hnotOk (by simp [FetchResult.isOk])
        · rw [statesGet_fail cfg net now base rolls s url st e txt htoAbs hb
            htry]
          refine statesFallThrough_demo _ _ _ _ _ _ ?_ hdemo
          rw [(onFail_caches _ _ _ _).2]
          exact hcache
      · rw [statesGet_skip cfg net now base rolls s (Or.inr hb)]
        exact statesFallThrough_demo _ _ _ _ _ _ hcache hdemo
  · intro i hi
    rw [demoRandomize_getD base rolls i hi]
    obtain ⟨hm, hnd⟩ := hmem i hi
    obtain ⟨_, _, h3, h4⟩ := hrolls i
    exact ⟨rerollEntry_keys _ _ _,
      fun k hk => rerollEntry_getKey_ne _ _ _ _ hk,
      fun hlt => ⟨rerollEntry_mutate _ _ _ hlt hm,
        pickCandidate_mem _ h3 h4⟩,
      fun hge => rerollEntry_noMutate _ _ _ hge hm hnd⟩
  · intro i j hlo hhi
    exact pickCandidate_uniform _ j hlo hhi

/-- Witness for C7: one baseline entry; first draw 0 (mutates), second draw
1/2 (candidate index 6, code "16"). -/
theorem demo_states_randomization_witness :
    (⟨"", "", "", true, 2000, 3000, 3, 30000⟩ :
      ServerConfig).demoConfigured = true ∧
    initialState.cacheStates.data.truthy = false ∧
    liveFailsOrSkippedStates ⟨"", "", "", true, 2000, 3000, 3, 30000⟩
      (.netError "down") 0 initialState = true ∧
    (statesGet ⟨"", "", "", true, 2000, 3000, 3, 30000⟩ (.netError "down") 0
        [[("id", .str "a"), ("state", .str "X")]]
        (fun _ => (0, mkRat 1 2)) initialState).response.xDemoFallback =
      some "states" ∧
    demoRandomize [[("id", .str "a"), ("state", .str "X")]]
        (fun _ => (0, mkRat 1 2)) =
      [[("id", Json.str "a"), ("state", Json.str "16")]] :=
  ⟨rfl, rfl, rfl,
    by rw [(demo_states_randomization
        ⟨"", "", "", true, 2000, 3000, 3, 30000⟩ (.netError "down") 0
        [[("id", .str "a"), ("state", .str "X")]]
        (fun _ => (0, mkRat 1 2)) initialState rfl rfl rfl
        (fun i => by
          rw [Rat.mkRat_eq_divInt]
          norm_num [Rat.divInt_eq_div])
        (by decide)).1],
    by
      have h1 : (0 : Rat) < 1/4 := by norm_num
      have hpick : pickCandidate (mkRat 1 2) = "16" := by
        have hu := pickCandidate_uniform (mkRat 1 2) 6
          (by rw [Rat.mkRat_eq_divInt]; norm_num [Rat.divInt_eq_div])
          (by rw [Rat.mkRat_eq_divInt]; norm_num [Rat.divInt_eq_div])
        simpa [demoCandidates] using hu
      simp [demoRandomize, rerollEntry, h1, hpick, setKey]⟩

end TrafficServer
